import Mathlib

/-!
Verification of the container/demuxing and animation-playback layer of the
`image-webp` decoder (`src/decoder.rs`), as a shallow embedding in Lean 4.

The byte stream (`Read + Seek`) is modelled as a list of bytes together with a
cursor position.  Machine integers are modelled as `Nat` with explicit
`% 2^32` (resp. saturation) where 32-bit overflow matters.  Fallible code
returns `Except DecodingError`.  The two pixel codecs (`Vp8Decoder`,
`LosslessDecoder`), `read_alpha_chunk` and `get_alpha_predictor` are external
collaborators of the core and enter the model as an oracle parameter; the few
helpers of `src/extended.rs` that the core calls directly are modelled from
the specification and marked as such.

Rust panics (`assert!`, `unreachable!`, `copy_from_slice` length mismatch,
`unwrap` on `None`) do not return an error to the caller; they are modelled by
the distinguished `DecodingError.panicked` value so that the embedding stays
total.  Theorems about *returned* errors exclude it.
-/

/-- Kind of an IO error; the decoder only distinguishes `UnexpectedEof`. -/
inductive IoKind where
  | unexpectedEof
  | otherIo
deriving DecidableEq, Repr

/-- Embedding of `enum DecodingError` (src/decoder.rs:17-120), restricted to the
variants the demuxing layer can produce, plus `panicked` (see module comment). -/
inductive DecodingError where
  | ioError (kind : IoKind)
  | riffSignatureInvalid (sig : List Nat)
  | webpSignatureInvalid (sig : List Nat)
  | chunkMissing
  | chunkHeaderInvalid (sig : List Nat)
  | infoBitsInvalid (name : String) (value : Nat)
  | alphaChunkSizeMismatch
  | imageTooLarge
  | frameOutsideImage
  | losslessSignatureInvalid (sig : Nat)
  | versionNumberInvalid (v : Nat)
  | vp8MagicInvalid (m : List Nat)
  | inconsistentImageSizes
  | unsupportedFeature (s : String)
  | invalidParameter (s : String)
  | memoryLimitExceeded
  | invalidChunkSize
  | decoderError
  | panicked
deriving DecidableEq, Repr

instance {e a : Type} [DecidableEq e] [DecidableEq a] : DecidableEq (Except e a) := fun x y =>
  match x, y with
  | .error u, .error v => if h : u = v then .isTrue (by rw [h]) else .isFalse (by simp [h])
  | .ok u, .ok v => if h : u = v then .isTrue (by rw [h]) else .isFalse (by simp [h])
  | .error _, .ok _ => .isFalse (by simp)
  | .ok _, .error _ => .isFalse (by simp)

/-- Embedding of `enum WebPRiffChunk` (src/decoder.rs:125-138).  The fourcc of
the `Unknown` variant is kept as the raw list of 4 bytes. -/
inductive WebPRiffChunk where
  | RIFF | WEBP | VP8 | VP8L | VP8X | ANIM | ANMF | ALPH | ICCP | EXIF | XMP
  | Unknown (fourcc : List Nat)
deriving DecidableEq, Repr

namespace WebPRiffChunk

/-- Embedding of `WebPRiffChunk::from_fourcc` (src/decoder.rs:141-156); the
Rust `match` on byte arrays is a chain of 4-byte equality tests. -/
def from_fourcc (chunk_fourcc : List Nat) : WebPRiffChunk :=
  if chunk_fourcc = [0x52, 0x49, 0x46, 0x46] then .RIFF
  else if chunk_fourcc = [0x57, 0x45, 0x42, 0x50] then .WEBP
  else if chunk_fourcc = [0x56, 0x50, 0x38, 0x20] then .VP8
  else if chunk_fourcc = [0x56, 0x50, 0x38, 0x4C] then .VP8L
  else if chunk_fourcc = [0x56, 0x50, 0x38, 0x58] then .VP8X
  else if chunk_fourcc = [0x41, 0x4E, 0x49, 0x4D] then .ANIM
  else if chunk_fourcc = [0x41, 0x4E, 0x4D, 0x46] then .ANMF
  else if chunk_fourcc = [0x41, 0x4C, 0x50, 0x48] then .ALPH
  else if chunk_fourcc = [0x49, 0x43, 0x43, 0x50] then .ICCP
  else if chunk_fourcc = [0x45, 0x58, 0x49, 0x46] then .EXIF
  else if chunk_fourcc = [0x58, 0x4D, 0x50, 0x20] then .XMP
  else .Unknown chunk_fourcc

/-- Embedding of `WebPRiffChunk::to_fourcc` (src/decoder.rs:158-173). -/
def to_fourcc : WebPRiffChunk → List Nat
  | .RIFF => [0x52, 0x49, 0x46, 0x46]
  | .WEBP => [0x57, 0x45, 0x42, 0x50]
  | .VP8 => [0x56, 0x50, 0x38, 0x20]
  | .VP8L => [0x56, 0x50, 0x38, 0x4C]
  | .VP8X => [0x56, 0x50, 0x38, 0x58]
  | .ANIM => [0x41, 0x4E, 0x49, 0x4D]
  | .ANMF => [0x41, 0x4E, 0x4D, 0x46]
  | .ALPH => [0x41, 0x4C, 0x50, 0x48]
  | .ICCP => [0x49, 0x43, 0x43, 0x50]
  | .EXIF => [0x45, 0x58, 0x49, 0x46]
  | .XMP => [0x58, 0x4D, 0x50, 0x20]
  | .Unknown fourcc => fourcc

/-- Embedding of `WebPRiffChunk::is_unknown` (src/decoder.rs:175-177). -/
def is_unknown : WebPRiffChunk → Bool
  | .Unknown _ => true
  | _ => false

end WebPRiffChunk

/-- The underlying `Read + Seek` reader: the whole byte sequence plus the
current cursor position.  `Seek` is a pure update of `pos`. -/
structure ByteStream where
  data : List Nat
  pos : Nat
deriving DecidableEq, Repr

/-- Byte lookup used by the reader model (structural `List.getElem?`). -/
def byteAt : List Nat → Nat → Option Nat
  | [], _ => none
  | b :: _, 0 => some b
  | _ :: l, n + 1 => byteAt l n

/-- `read_u8`: one byte, or `UnexpectedEof` when the stream is exhausted. -/
def readU8 (st : ByteStream) : Except DecodingError (Nat × ByteStream) :=
  match byteAt st.data st.pos with
  | some b => .ok (b, ⟨st.data, st.pos + 1⟩)
  | none => .error (.ioError .unexpectedEof)

/-- `read_exact` into an `n`-byte buffer. -/
def readBytes : Nat → ByteStream → Except DecodingError (List Nat × ByteStream)
  | 0, st => .ok ([], st)
  | n + 1, st =>
    match readU8 st with
    | .error e => .error e
    | .ok (b, st1) =>
      match readBytes n st1 with
      | .error e => .error e
      | .ok (bs, st2) => .ok (b :: bs, st2)

/-- `read_u16::<LittleEndian>`. -/
def readU16 (st : ByteStream) : Except DecodingError (Nat × ByteStream) :=
  match readU8 st with
  | .error e => .error e
  | .ok (b0, st1) =>
    match readU8 st1 with
    | .error e => .error e
    | .ok (b1, st2) => .ok (b0 + 256 * b1, st2)

/-- `read_u24::<LittleEndian>`. -/
def readU24 (st : ByteStream) : Except DecodingError (Nat × ByteStream) :=
  match readU8 st with
  | .error e => .error e
  | .ok (b0, st1) =>
    match readU8 st1 with
    | .error e => .error e
    | .ok (b1, st2) =>
      match readU8 st2 with
      | .error e => .error e
      | .ok (b2, st3) => .ok (b0 + 256 * b1 + 65536 * b2, st3)

/-- `read_u32::<LittleEndian>`. -/
def readU32 (st : ByteStream) : Except DecodingError (Nat × ByteStream) :=
  match readU8 st with
  | .error e => .error e
  | .ok (b0, st1) =>
    match readU8 st1 with
    | .error e => .error e
    | .ok (b1, st2) =>
      match readU8 st2 with
      | .error e => .error e
      | .ok (b2, st3) =>
        match readU8 st3 with
        | .error e => .error e
        | .ok (b3, st4) =>
          .ok (b0 + 256 * b1 + 65536 * b2 + 16777216 * b3, st4)

/-- Embedding of `read_fourcc` (src/decoder.rs:749-753). -/
def read_fourcc (st : ByteStream) : Except DecodingError (WebPRiffChunk × ByteStream) :=
  match readBytes 4 st with
  | .error e => .error e
  | .ok (bs, st1) => .ok (WebPRiffChunk.from_fourcc bs, st1)

/-- `u32::saturating_add` on 32-bit values. -/
def satAdd32 (a b : Nat) : Nat := min (a + b) 4294967295

/-- Embedding of `read_chunk_header` (src/decoder.rs:755-762): 4-byte tag,
32-bit little-endian declared size, and the even-padded size computed with
saturating addition. -/
def read_chunk_header (st : ByteStream) :
    Except DecodingError ((WebPRiffChunk × Nat × Nat) × ByteStream) :=
  match read_fourcc st with
  | .error e => .error e
  | .ok (chunk, st1) =>
    match readU32 st1 with
    | .error e => .error e
    | .ok (chunk_size, st2) =>
      .ok ((chunk, chunk_size, satAdd32 chunk_size (chunk_size &&& 1)), st2)

/-- The chunk index `HashMap<WebPRiffChunk, Range<u64>>`, modelled as an
association list over `(tag, payload start, payload end)`; at most one entry
per tag (`entry(..).or_insert(..)` keeps the first occurrence). -/
abbrev Chunks := List (WebPRiffChunk × Nat × Nat)

/-- `chunks.get(&tag)`: the recorded payload range of a tag, if present. -/
def Chunks.findTag (c : Chunks) (k : WebPRiffChunk) : Option (Nat × Nat) :=
  match List.find? (fun e => e.1 = k) c with
  | some e => some e.2
  | none => none

/-- `chunks.contains_key(&tag)`. -/
def Chunks.containsTag (c : Chunks) (k : WebPRiffChunk) : Bool :=
  (c.findTag k).isSome

/-- `chunks.entry(tag).or_insert(range)`: first occurrence wins. -/
def Chunks.insertIfAbsent (c : Chunks) (k : WebPRiffChunk) (v : Nat × Nat) : Chunks :=
  if (c.findTag k).isSome then c else (k, v) :: c

/-- The fields of `WebPExtendedInfo` (src/extended.rs) that the demuxing core
reads: the five feature flags, the canvas dimensions and the background
color. -/
structure WebPExtendedInfo where
  icc_profile : Bool
  alpha : Bool
  exif_metadata : Bool
  xmp_metadata : Bool
  animation : Bool
  canvas_width : Nat
  canvas_height : Nat
  background_color : List Nat
deriving DecidableEq, Repr

/-- Embedding of `enum ImageKind` (src/decoder.rs:186-190). -/
inductive ImageKind where
  | lossy
  | lossless
  | extended (info : WebPExtendedInfo)
deriving DecidableEq, Repr

/-- Embedding of `struct AnimationState` (src/decoder.rs:192-198). -/
structure AnimationState where
  next_frame : Nat
  loops_before_done : Option Nat
  next_frame_start : Nat
  dispose_next_frame : Bool
  canvas : Option (List Nat)
deriving DecidableEq, Repr

/-- Embedding of `impl Default for AnimationState` (src/decoder.rs:199-209). -/
def AnimationState.dflt : AnimationState :=
  { next_frame := 0
    loops_before_done := none
    next_frame_start := 0
    dispose_next_frame := true
    canvas := none }

/-- Embedding of `struct WebPDecoder<R>` (src/decoder.rs:212-226); the reader
`r` is the `ByteStream`. -/
structure DecoderState where
  r : ByteStream
  memory_limit : Nat
  width : Nat
  height : Nat
  num_frames : Nat
  animation : AnimationState
  kind : ImageKind
  is_lossy : Bool
  chunks : Chunks
deriving DecidableEq, Repr

/-- Modelled from the spec: `read_3_bytes` lives in `src/extended.rs`, which is
not included under `src/`.  Per §6 the 3-byte fields of the format are
little-endian unsigned values ("N-byte unsigned reads" are out-of-scope
primitives). -/
def read_3_bytes (st : ByteStream) : Except DecodingError (Nat × ByteStream) :=
  readU24 st

/-- Modelled from the spec: `read_extended_header` lives in `src/extended.rs`,
which is not included under `src/`.  Per §6 the extended-header payload is one
flags byte (bit layout, MSB first: reserved(2)/has-ICC/has-alpha/has-EXIF/
has-XMP/has-animation/reserved(1)), three reserved bytes, then 3-byte
little-endian canvas-width-minus-one and canvas-height-minus-one.  The
background color is populated later from the animation header chunk. -/
def read_extended_header (st : ByteStream) :
    Except DecodingError (WebPExtendedInfo × ByteStream) :=
  match readU8 st with
  | .error e => .error e
  | .ok (flags, st1) =>
    match readBytes 3 st1 with
    | .error e => .error e
    | .ok (_, st2) =>
      match read_3_bytes st2 with
      | .error e => .error e
      | .ok (wm1, st3) =>
        match read_3_bytes st3 with
        | .error e => .error e
        | .ok (hm1, st4) =>
          .ok ({ icc_profile := flags.testBit 5
                 alpha := flags.testBit 4
                 exif_metadata := flags.testBit 3
                 xmp_metadata := flags.testBit 2
                 animation := flags.testBit 1
                 canvas_width := 1 + wm1
                 canvas_height := 1 + hm1
                 background_color := [0, 0, 0, 0] }, st4)

/-- `BufReader::seek_relative` with an `i64` offset: fails when the resulting
position would be negative. -/
def seekRelative (st : ByteStream) (delta : Int) : Except DecodingError ByteStream :=
  if (st.pos : Int) + delta < 0 then .error (.ioError .otherIo)
  else .ok ⟨st.data, ((st.pos : Int) + delta).toNat⟩

/-- Embedding of the extended-format chunk-list scan, the `while position <
max_position` loop of `WebPDecoder::read_data` (src/decoder.rs:321-359).  The
`BufReader` wrapper only amortizes reads; its observable reads and seeks are
those of the underlying stream.  Returns the final stream, chunk index, ANMF
count and lossy flag. -/
def scanChunks (st : ByteStream) (position max_position : Nat) (chunks : Chunks)
    (num_frames : Nat) (is_lossy : Bool) :
    Except DecodingError (ByteStream × Chunks × Nat × Bool) :=
  if _h : position < max_position then
    match read_chunk_header st with
    | .error (.ioError .unexpectedEof) => .ok (st, chunks, num_frames, is_lossy)
    | .error e => .error e
    | .ok ((chunk, chunk_size, chunk_size_rounded), st1) =>
      if chunk.is_unknown then .ok (st1, chunks, num_frames, is_lossy)
      else
        let range := (position + 8, position + 8 + chunk_size)
        let position1 := position + 8 + chunk_size_rounded
        let chunks1 := chunks.insertIfAbsent chunk range
        if chunk = .ANMF then
          let num_frames1 := num_frames + 1
          if !is_lossy then
            match read_chunk_header st1 with
            | .error e => .error e
            | .ok ((subchunk, _, _), st2) =>
              let is_lossy1 := if subchunk = .VP8 ∨ subchunk = .ALPH then true else is_lossy
              match seekRelative st2 ((chunk_size_rounded : Int) - 8) with
              | .error e => .error e
              | .ok st3 =>
                scanChunks st3 position1 max_position chunks1 num_frames1 is_lossy1
          else
            match seekRelative st1 (chunk_size_rounded : Int) with
            | .error e => .error e
            | .ok st2 =>
              scanChunks st2 position1 max_position chunks1 num_frames1 is_lossy
        else
          match seekRelative st1 (chunk_size_rounded : Int) with
          | .error e => .error e
          | .ok st2 =>
            scanChunks st2 position1 max_position chunks1 num_frames is_lossy
  else .ok (st, chunks, num_frames, is_lossy)
termination_by max_position - position
decreasing_by all_goals omega

/-- The feature-flag/chunk-presence cross-validation condition of
`WebPDecoder::read_data` (src/decoder.rs:362-371); `true` means the container
is rejected with `ChunkMissing`. -/
def chunkFlagValidationFails (info : WebPExtendedInfo) (chunks : Chunks) : Bool :=
  info.animation
      && (!(chunks.containsTag .ANIM) || !(chunks.containsTag .ANMF))
    || info.icc_profile && !(chunks.containsTag .ICCP)
    || info.exif_metadata && !(chunks.containsTag .EXIF)
    || info.xmp_metadata && !(chunks.containsTag .XMP)
    || !info.animation
      && (chunks.containsTag .VP8 == chunks.containsTag .VP8L)

/-- Embedding of `WebPDecoder::read_chunk` (src/decoder.rs:471-489),
specialized to the in-memory read: looks the tag up, enforces the size bound,
seeks and reads the payload. -/
def readChunk (st : ByteStream) (chunks : Chunks) (tag : WebPRiffChunk)
    (max_size : Nat) : Except DecodingError (Option (List Nat) × ByteStream) :=
  match chunks.findTag tag with
  | some (a, b) =>
    if max_size < b - a then .error .memoryLimitExceeded
    else
      match readBytes (b - a) ⟨st.data, a⟩ with
      | .error e => .error e
      | .ok (data, st1) => .ok (some data, st1)
  | none => .ok (none, st)

/-- The ANIM-chunk decode step of `read_data` (src/decoder.rs:376-394): read
the 6-byte animation header, producing the background color, the loop counter
(`0` = infinite = `none`) and the first ANMF chunk's payload start. -/
def decodeAnimChunk (st : ByteStream) (chunks : Chunks) :
    Except DecodingError ((List Nat × Option Nat × Nat) × ByteStream) :=
  match readChunk st chunks .ANIM 6 with
  | .ok (some chunkData, st1) =>
    match readBytes 4 ⟨chunkData, 0⟩ with
    | .error e => .error e
    | .ok (bg, cursor1) =>
      match readU16 cursor1 with
      | .error e => .error e
      | .ok (loopCount, _) =>
        let loops : Option Nat := if loopCount = 0 then none else some loopCount
        match chunks.findTag .ANMF with
        | some (s, _) => .ok ((bg, loops, s), st1)
        | none => .error .panicked
  | .ok (none, _) => .error .chunkMissing
  | .error .memoryLimitExceeded => .error .invalidChunkSize
  | .error e => .error e

/-- The first-frame sub-chunk pre-population step of `read_data`
(src/decoder.rs:396-414): at the ANMF payload range, read up to two sub-chunk
headers and record their (unpadded) ranges if their tags are not yet in the
index. -/
def prepopulateFirstFrame (st : ByteStream) (chunks : Chunks) :
    Except DecodingError (Chunks × ByteStream) :=
  match chunks.findTag .ANMF with
  | none => .ok (chunks, st)
  | some (rs, re) =>
    match read_chunk_header ⟨st.data, rs⟩ with
    | .error e => .error e
    | .ok ((sub1, size1, rounded1), stA) =>
      let chunksA := chunks.insertIfAbsent sub1 (rs + 8, rs + 8 + size1)
      let position1 := rs + 8 + rounded1
      if position1 + 8 > re then .ok (chunksA, stA)
      else
        match read_chunk_header stA with
        | .error e => .error e
        | .ok ((sub2, size2, _), stB) =>
          let chunksB := chunksA.insertIfAbsent sub2 (position1 + 8, position1 + 8 + size2)
          .ok (chunksB, stB)

/-- Embedding of `WebPDecoder::new` / `WebPDecoder::read_data`
(src/decoder.rs:231-422): parse the RIFF envelope and the single payload
chunk, dispatching on its tag; the extended path runs the chunk-list scan,
the flag validation, the ANIM decode and the first-frame pre-population.
Construction failure is the `Except` error. -/
def readData (st : ByteStream) : Except DecodingError DecoderState :=
  match read_chunk_header st with
  | .error e => .error e
  | .ok ((c0, riff_size, _), st1) =>
    if c0 ≠ .RIFF then .error (.chunkHeaderInvalid [0x52, 0x49, 0x46, 0x46])
    else
      match read_fourcc st1 with
      | .error e => .error e
      | .ok (fourcc, st2) =>
        if fourcc ≠ .WEBP then .error (.webpSignatureInvalid fourcc.to_fourcc)
        else
          match read_chunk_header st2 with
          | .error e => .error e
          | .ok ((chunk, chunk_size, chunk_size_rounded), st3) =>
            let start := st3.pos
            match chunk with
            | .VP8 =>
              match readU24 st3 with
              | .error e => .error e
              | .ok (tag, st4) =>
                if tag &&& 1 ≠ 0 then
                  .error (.unsupportedFeature "Non-keyframe frames")
                else
                  match readBytes 3 st4 with
                  | .error e => .error e
                  | .ok (magic, st5) =>
                    if magic ≠ [0x9d, 0x01, 0x2a] then .error (.vp8MagicInvalid magic)
                    else
                      match readU16 st5 with
                      | .error e => .error e
                      | .ok (w, st6) =>
                        match readU16 st6 with
                        | .error e => .error e
                        | .ok (h, st7) =>
                          .ok { r := st7
                                memory_limit := 18446744073709551615
                                width := w &&& 0x3FFF
                                height := h &&& 0x3FFF
                                num_frames := 0
                                animation := AnimationState.dflt
                                kind := .lossy
                                is_lossy := true
                                chunks := Chunks.insertIfAbsent []
                                  .VP8 (start, start + chunk_size) }
            | .VP8L =>
              match readU8 st3 with
              | .error e => .error e
              | .ok (signature, st4) =>
                if signature ≠ 0x2f then .error (.losslessSignatureInvalid signature)
                else
                  match readU32 st4 with
                  | .error e => .error e
                  | .ok (header, st5) =>
                    if header >>> 29 ≠ 0 then .error (.versionNumberInvalid (header >>> 29))
                    else
                      .ok { r := st5
                            memory_limit := 18446744073709551615
                            width := (1 + header) &&& 0x3FFF
                            height := (1 + (header >>> 14)) &&& 0x3FFF
                            num_frames := 0
                            animation := AnimationState.dflt
                            kind := .lossless
                            is_lossy := false
                            chunks := Chunks.insertIfAbsent []
                              .VP8L (start, start + chunk_size) }
            | .VP8X =>
              match read_extended_header st3 with
              | .error e => .error e
              | .ok (info0, st4) =>
                let position := start + chunk_size_rounded
                let max_position := position + (riff_size - 12)
                match scanChunks ⟨st4.data, position⟩ position max_position [] 0 false with
                | .error e => .error e
                | .ok (st5, chunks1, num_frames, is_lossy1) =>
                  let is_lossy2 := is_lossy1 || chunks1.containsTag .VP8
                  if chunkFlagValidationFails info0 chunks1 then .error .chunkMissing
                  else
                    match (if info0.animation then
                        decodeAnimChunk st5 chunks1
                      else
                        .ok (([0, 0, 0, 0], AnimationState.dflt.loops_before_done,
                          AnimationState.dflt.next_frame_start), st5) : Except _ _) with
                    | .error e => .error e
                    | .ok ((bg, loops, nfs), st6) =>
                      let info1 := if info0.animation then
                          { info0 with background_color := bg }
                        else info0
                      match prepopulateFirstFrame st6 chunks1 with
                      | .error e => .error e
                      | .ok (chunks2, st7) =>
                        .ok { r := st7
                              memory_limit := 18446744073709551615
                              width := info0.canvas_width
                              height := info0.canvas_height
                              num_frames := num_frames
                              animation := { AnimationState.dflt with
                                loops_before_done := loops
                                next_frame_start := nfs }
                              kind := .extended info1
                              is_lossy := is_lossy2
                              chunks := chunks2 }
            | _ => .error (.chunkHeaderInvalid chunk.to_fourcc)

/-- Embedding of `WebPDecoder::has_animation` (src/decoder.rs:432-437). -/
def has_animation (d : DecoderState) : Bool :=
  match d.kind with
  | .lossy | .lossless => false
  | .extended info => info.animation

/-- Embedding of `WebPDecoder::has_alpha` (src/decoder.rs:441-447). -/
def has_alpha (d : DecoderState) : Bool :=
  match d.kind with
  | .lossy => false
  | .lossless => true
  | .extended info => info.alpha

/-- Embedding of `WebPDecoder::set_background_color` (src/decoder.rs:455-464):
accepts exactly the extended containers (the animation flag is not
consulted). -/
def set_background_color (d : DecoderState) (color : List Nat) :
    Except DecodingError Unit × DecoderState :=
  match d.kind with
  | .extended info =>
    (.ok (), { d with kind := .extended { info with background_color := color } })
  | _ =>
    (.error (.invalidParameter "Background color can only be set on animated webp"), d)

/-- Embedding of `WebPDecoder::dimensions` (src/decoder.rs:467-469). -/
def dimensions (d : DecoderState) : Nat × Nat := (d.width, d.height)

/-- The result of an external pixel decoder's `decode_frame` plus its two fill
operations (§6 collaborator contract): a frame of known width/height, its
"fill RGB" output (3 bytes per pixel) and its "fill RGBA" output (4 bytes per
pixel). -/
structure DecodedFrame where
  width : Nat
  height : Nat
  rgb : List Nat
  rgba : List Nat
deriving DecidableEq, Repr

/-- The external collaborators of `read_frame`: the lossy decoder, the
lossless decoder, `read_alpha_chunk` (returning the declared filtering method
and the residual bytes) and `get_alpha_predictor`.  Each is given the byte
slice handed to it by the core (a `take`-limited reader). -/
structure DecodeOracle where
  vp8 : List Nat → Except DecodingError DecodedFrame
  vp8l : List Nat → Except DecodingError DecodedFrame
  alph : List Nat → Nat → Nat → Except DecodingError (Nat × List Nat)
  predictor : Nat → Nat → Nat → Nat → List Nat → Nat

/-- The byte slice seen by a `(&mut self.r).take(n)` reader. -/
def takeBytes (st : ByteStream) (n : Nat) : List Nat :=
  (st.data.drop st.pos).take n

/-- Overwrite the 4 bytes of pixel `(x, y)` of an RGBA canvas of width `cw`. -/
def setPixel (canvas : List Nat) (cw x y : Nat) (px : List Nat) : List Nat :=
  let base := (y * cw + x) * 4
  ((((canvas.set base (px.getD 0 0)).set (base + 1) (px.getD 1 0)).set
    (base + 2) (px.getD 2 0)).set (base + 3) (px.getD 3 0))

/-- Modelled from the spec (§4.5): clear the whole placement rectangle to the
given 4-byte color. -/
def clearRect (canvas : List Nat) (cw : Nat) (color : List Nat)
    (fx fy fw fh : Nat) : List Nat :=
  (List.range fh).foldl (fun acc y =>
    (List.range fw).foldl (fun acc2 x =>
      setPixel acc2 cw (fx + x) (fy + y) color) acc) canvas

/-- Modelled from the spec (§4.5): one destination pixel.  The source pixel
either overwrites the destination outright (no-blend flag set, or destination
fully transparent) or is alpha-composited with standard source-over blending
in 8-bit integer arithmetic. -/
def blendPixel (use_blend : Bool) (src dst : List Nat) : List Nat :=
  let sa := src.getD 3 0
  let da := dst.getD 3 0
  if !use_blend || da = 0 then src
  else
    let oa := sa + da * (255 - sa) / 255
    let chan := fun i =>
      (src.getD i 0 * sa + dst.getD i 0 * da * (255 - sa) / 255) / max oa 1
    [chan 0, chan 1, chan 2, oa]

/-- Modelled from the spec (§4.5): blit the decoded sub-frame (either RGBA, or
RGB treated as fully opaque) onto the canvas inside its placement rectangle,
pixel by pixel. -/
def blitFrame (canvas : List Nat) (cw : Nat) (frame : List Nat)
    (fx fy fw fh : Nat) (frame_has_alpha use_blend : Bool) : List Nat :=
  (List.range fh).foldl (fun acc y =>
    (List.range fw).foldl (fun acc2 x =>
      let src := if frame_has_alpha then
          [frame.getD ((y * fw + x) * 4) 0, frame.getD ((y * fw + x) * 4 + 1) 0,
           frame.getD ((y * fw + x) * 4 + 2) 0, frame.getD ((y * fw + x) * 4 + 3) 0]
        else
          [frame.getD ((y * fw + x) * 3) 0, frame.getD ((y * fw + x) * 3 + 1) 0,
           frame.getD ((y * fw + x) * 3 + 2) 0, 255]
      let base := ((fy + y) * cw + (fx + x)) * 4
      let dst := [acc2.getD base 0, acc2.getD (base + 1) 0,
                  acc2.getD (base + 2) 0, acc2.getD (base + 3) 0]
      setPixel acc2 cw (fx + x) (fy + y) (blendPixel use_blend src dst)) acc) canvas

/-- Modelled from the spec: `composite_frame` lives in `src/extended.rs`,
which is not included under `src/`.  Per §4.5, if a "dispose to background"
pre-clear was requested the whole placement rectangle is cleared to the
background color first, before blending; then the sub-frame is composited
pixel by pixel; pixels outside the rectangle are untouched. -/
def composite_frame (canvas : List Nat) (cw _ch : Nat) (clear_color : Option (List Nat))
    (frame : List Nat) (fx fy fw fh : Nat) (frame_has_alpha use_blend : Bool) :
    List Nat :=
  let canvas1 := match clear_color with
    | some color => clearRect canvas cw color fx fy fw fh
    | none => canvas
  blitFrame canvas1 cw frame fx fy fw fh frame_has_alpha use_blend

/-- The alpha-reconstruction loop of `read_frame` (src/decoder.rs:681-698):
for each pixel of the decoded frame in raster order, replace the alpha sample
at index `4 * (y * w + x) + 3` with `predictor + residual` under wrapping
(mod 256) addition. -/
def alphaLoop (pred : Nat → Nat → Nat → Nat → List Nat → Nat)
    (filtering_method w h : Nat) (adata rgba : List Nat) : List Nat :=
  (List.range h).foldl (fun acc y =>
    (List.range w).foldl (fun acc2 x =>
      let p := pred x y w filtering_method acc2
      let alpha_index := y * w + x
      acc2.set (alpha_index * 4 + 3) ((p + adata.getD alpha_index 0) % 256)) acc) rgba

/-- The values computed by the fallible parsing/decoding phase of
`read_frame` (src/decoder.rs:597-703): the declared ANMF size, the decoded
32-byte frame header fields, the decoded sub-frame bytes, and the reader
after the phase.  No decoder field is mutated during this phase. -/
structure FrameParse where
  anmf_size : Nat
  frame_x : Nat
  frame_y : Nat
  frame_width : Nat
  frame_height : Nat
  duration : Nat
  use_alpha_blending : Bool
  dispose : Bool
  frame_data : List Nat
  frame_has_alpha : Bool
  st : ByteStream
deriving DecidableEq, Repr

/-- The parsing/decoding phase of `WebPDecoder::read_frame`
(src/decoder.rs:597-703), starting from the reader positioned at
`next_frame_start`: read the ANMF chunk header (tag must be ANMF with size
≥ 32), the 16-byte frame header (offsets doubled, sizes offset-by-one, top 6
flag bits zero), check the frame rectangle against the canvas, then read the
nested bitstream chunk header and dispatch to the lossy decoder, the lossless
decoder, or the alpha-then-lossy pair.  An error carries the reader at the
point of failure. -/
def readFrameParse (oracle : DecodeOracle) (width height : Nat) (st0 : ByteStream) :
    Except (DecodingError × ByteStream) FrameParse :=
  match read_chunk_header st0 with
  | .error e => .error (e, st0)
  | .ok ((chunk0, anmf_size, _), st1) =>
    if ¬(chunk0 = .ANMF ∧ 32 ≤ anmf_size) then
      .error (.chunkHeaderInvalid [0x41, 0x4E, 0x4D, 0x46], st1)
    else
      match read_3_bytes st1 with
      | .error e => .error (e, st1)
      | .ok (fx0, st2) =>
        match read_3_bytes st2 with
        | .error e => .error (e, st2)
        | .ok (fy0, st3) =>
          match read_3_bytes st3 with
          | .error e => .error (e, st3)
          | .ok (fw0, st4) =>
            match read_3_bytes st4 with
            | .error e => .error (e, st4)
            | .ok (fh0, st5) =>
              if fx0 * 2 + (fw0 + 1) > width ∨ fy0 * 2 + (fh0 + 1) > height then
                .error (.frameOutsideImage, st5)
              else
                match read_3_bytes st5 with
                | .error e => .error (e, st5)
                | .ok (duration, st6) =>
                  match readU8 st6 with
                  | .error e => .error (e, st6)
                  | .ok (frame_info, st7) =>
                    if frame_info &&& 0b11111100 ≠ 0 then
                      .error (.infoBitsInvalid "reserved" (frame_info &&& 0b11111100), st7)
                    else
                      match read_chunk_header st7 with
                      | .error e => .error (e, st7)
                      | .ok ((chunk, chunk_size, chunk_size_rounded), st8) =>
                        if (chunk_size_rounded + 32) % 4294967296 < anmf_size then
                          .error (.chunkHeaderInvalid chunk.to_fourcc, st8)
                        else
                          match (match chunk with
                            | .VP8 =>
                              match oracle.vp8 (takeBytes st8 chunk_size) with
                              | .error e => .error e
                              | .ok raw_frame =>
                                if raw_frame.width ≠ fw0 + 1 ∨ raw_frame.height ≠ fh0 + 1 then
                                  .error .inconsistentImageSizes
                                else
                                  .ok ((raw_frame.rgb, false),
                                    (⟨st8.data, st8.pos + chunk_size⟩ : ByteStream))
                            | .VP8L =>
                              match oracle.vp8l (takeBytes st8 chunk_size) with
                              | .error e => .error e
                              | .ok frame =>
                                if frame.width ≠ fw0 + 1 ∨ frame.height ≠ fh0 + 1 then
                                  .error .inconsistentImageSizes
                                else
                                  .ok ((frame.rgba, true),
                                    (⟨st8.data, st8.pos + chunk_size⟩ : ByteStream))
                            | .ALPH =>
                              if (chunk_size_rounded + 40) % 4294967296 < anmf_size then
                                .error (.chunkHeaderInvalid chunk.to_fourcc)
                              else
                                match oracle.alph (takeBytes st8 chunk_size) (fw0 + 1) (fh0 + 1) with
                                | .error e => .error e
                                | .ok (filtering_method, adata) =>
                                  match read_chunk_header
                                      (⟨st8.data, st8.pos + chunk_size_rounded⟩ : ByteStream) with
                                  | .error e => .error e
                                  | .ok ((next_chunk, next_chunk_size, _), st9) =>
                                    if (chunk_size + next_chunk_size + 40) % 4294967296 > anmf_size then
                                      .error (.chunkHeaderInvalid next_chunk.to_fourcc)
                                    else
                                      match oracle.vp8 (takeBytes st9 chunk_size) with
                                      | .error e => .error e
                                      | .ok frame =>
                                        .ok ((alphaLoop oracle.predictor filtering_method
                                            frame.width frame.height adata frame.rgba, true),
                                          (⟨st9.data, st9.pos + chunk_size⟩ : ByteStream))
                            | _ => .error (.chunkHeaderInvalid chunk.to_fourcc) :
                              Except DecodingError ((List Nat × Bool) × ByteStream)) with
                          | .error e => .error (e, st8)
                          | .ok ((frame_data, frame_has_alpha), st10) =>
                            .ok { anmf_size := anmf_size
                                  frame_x := fx0 * 2
                                  frame_y := fy0 * 2
                                  frame_width := fw0 + 1
                                  frame_height := fh0 + 1
                                  duration := duration
                                  use_alpha_blending := frame_info &&& 0b00000010 = 0
                                  dispose := frame_info &&& 0b00000001 ≠ 0
                                  frame_data := frame_data
                                  frame_has_alpha := frame_has_alpha
                                  st := st10 }

/-- Embedding of `WebPDecoder::read_frame` (src/decoder.rs:583-738).  Returns
the call's result together with the decoder state and caller buffer after the
call; an error return carries the state at the point of failure (only the
reader has moved, since the source mutates no other field before line 705).
On success the commit phase (src/decoder.rs:705-737) allocates the canvas if
absent, composites the sub-frame (pre-clearing to the background color when
the previous frame requested disposal), advances the cursor, wraps it with a
loop-count decrement and a forced dispose when the frame count is reached, and
copies the canvas into the caller's buffer.  Rust panics are modelled as
`DecodingError.panicked` (the entry `assert!`, the `unreachable!`, the ANMF
`unwrap` on the wraparound reset, and a `copy_from_slice` length mismatch);
the `unwrap` panics after the wrap block has set `next_frame` to 0 and
decremented the loop counter, which the modelled panic state reflects. -/
def readFrame (oracle : DecodeOracle) (d : DecoderState) (buf : List Nat) :
    Except DecodingError (Option Nat) × DecoderState × List Nat :=
  if has_animation d = false then (.error .panicked, d, buf)
  else if d.animation.loops_before_done = some 0 then (.ok none, d, buf)
  else
    match d.kind with
    | .lossy | .lossless => (.error .panicked, d, buf)
    | .extended info =>
      match readFrameParse oracle d.width d.height ⟨d.r.data, d.animation.next_frame_start⟩ with
      | .error (e, st) => (.error e, { d with r := st }, buf)
      | .ok fp =>
        let canvas1 := composite_frame
          (d.animation.canvas.getD (List.replicate ((d.width * d.height * 4) % 4294967296) 0))
          d.width d.height
          (if d.animation.dispose_next_frame then some info.background_color else none)
          fp.frame_data fp.frame_x fp.frame_y fp.frame_width fp.frame_height
          fp.frame_has_alpha fp.use_alpha_blending
        if d.num_frames ≤ d.animation.next_frame + 1 then
          match d.chunks.findTag .ANMF with
          | none =>
            (.error .panicked,
             { d with r := fp.st, animation :=
               { next_frame := 0
                 loops_before_done := d.animation.loops_before_done.map (fun n => n - 1)
                 next_frame_start := d.animation.next_frame_start + fp.anmf_size + 8
                 dispose_next_frame := fp.dispose
                 canvas := some canvas1 } }, buf)
          | some (anmfStart, _) =>
            if buf.length = canvas1.length then
              (.ok (some fp.duration),
               { d with r := fp.st, animation :=
                 { next_frame := 0
                   loops_before_done := d.animation.loops_before_done.map (fun n => n - 1)
                   next_frame_start := anmfStart
                   dispose_next_frame := true
                   canvas := some canvas1 } }, canvas1)
            else
              (.error .panicked,
               { d with r := fp.st, animation :=
                 { next_frame := 0
                   loops_before_done := d.animation.loops_before_done.map (fun n => n - 1)
                   next_frame_start := anmfStart
                   dispose_next_frame := true
                   canvas := some canvas1 } }, buf)
        else
          if buf.length = canvas1.length then
            (.ok (some fp.duration),
             { d with r := fp.st, animation :=
               { next_frame := d.animation.next_frame + 1
                 loops_before_done := d.animation.loops_before_done
                 next_frame_start := d.animation.next_frame_start + fp.anmf_size + 8
                 dispose_next_frame := fp.dispose
                 canvas := some canvas1 } }, canvas1)
          else
            (.error .panicked,
             { d with r := fp.st, animation :=
               { next_frame := d.animation.next_frame + 1
                 loops_before_done := d.animation.loops_before_done
                 next_frame_start := d.animation.next_frame_start + fp.anmf_size + 8
                 dispose_next_frame := fp.dispose
                 canvas := some canvas1 } }, buf)

/-- A lossless still container whose VP8L header field for width-minus-one is
`0x3FFF` (header u32 = `0x3FFF`, version 0). -/
def vp8lBoundaryBytes : List Nat :=
  [0x52, 0x49, 0x46, 0x46, 0x1E, 0, 0, 0, 0x57, 0x45, 0x42, 0x50,
   0x56, 0x50, 0x38, 0x4C, 5, 0, 0, 0,
   0x2F, 0xFF, 0x3F, 0, 0]

/-- An extended still container: has-alpha flag set, a 1×1 VP8L payload chunk,
and no ALPH chunk anywhere. -/
def alphaFlagNoAlphBytes : List Nat :=
  [0x52, 0x49, 0x46, 0x46, 36, 0, 0, 0, 0x57, 0x45, 0x42, 0x50,
   0x56, 0x50, 0x38, 0x58, 10, 0, 0, 0,
   0x10, 0, 0, 0, 0, 0, 0, 0, 0, 0,
   0x56, 0x50, 0x38, 0x4C, 5, 0, 0, 0, 0x2F, 0, 0, 0, 0, 0]

/-- Same container but with the has-ICC flag set instead (no ICCP chunk). -/
def iccFlagNoIccpBytes : List Nat :=
  [0x52, 0x49, 0x46, 0x46, 36, 0, 0, 0, 0x57, 0x45, 0x42, 0x50,
   0x56, 0x50, 0x38, 0x58, 10, 0, 0, 0,
   0x20, 0, 0, 0, 0, 0, 0, 0, 0, 0,
   0x56, 0x50, 0x38, 0x4C, 5, 0, 0, 0, 0x2F, 0, 0, 0, 0, 0]

/-- Same container but with the has-EXIF flag set instead (no EXIF chunk). -/
def exifFlagNoExifBytes : List Nat :=
  [0x52, 0x49, 0x46, 0x46, 36, 0, 0, 0, 0x57, 0x45, 0x42, 0x50,
   0x56, 0x50, 0x38, 0x58, 10, 0, 0, 0,
   0x08, 0, 0, 0, 0, 0, 0, 0, 0, 0,
   0x56, 0x50, 0x38, 0x4C, 5, 0, 0, 0, 0x2F, 0, 0, 0, 0, 0]

/-- Same container but with the has-XMP flag set instead (no XMP chunk). -/
def xmpFlagNoXmpBytes : List Nat :=
  [0x52, 0x49, 0x46, 0x46, 36, 0, 0, 0, 0x57, 0x45, 0x42, 0x50,
   0x56, 0x50, 0x38, 0x58, 10, 0, 0, 0,
   0x04, 0, 0, 0, 0, 0, 0, 0, 0, 0,
   0x56, 0x50, 0x38, 0x4C, 5, 0, 0, 0, 0x2F, 0, 0, 0, 0, 0]

/-- An extended container, no animation flag, carrying both a VP8L and a VP8
payload chunk. -/
def bothPayloadsBytes : List Nat :=
  [0x52, 0x49, 0x46, 0x46, 48, 0, 0, 0, 0x57, 0x45, 0x42, 0x50,
   0x56, 0x50, 0x38, 0x58, 10, 0, 0, 0,
   0, 0, 0, 0, 0, 0, 0, 0, 0, 0,
   0x56, 0x50, 0x38, 0x4C, 5, 0, 0, 0, 0x2F, 0, 0, 0, 0, 0,
   0x56, 0x50, 0x38, 0x20, 4, 0, 0, 0, 0, 0, 0, 0]

/-- An extended container, no animation flag, with an empty chunk list
(neither VP8 nor VP8L). -/
def neitherPayloadBytes : List Nat :=
  [0x52, 0x49, 0x46, 0x46, 22, 0, 0, 0, 0x57, 0x45, 0x42, 0x50,
   0x56, 0x50, 0x38, 0x58, 10, 0, 0, 0,
   0, 0, 0, 0, 0, 0, 0, 0, 0, 0]

/-- A well-formed 1×1 animated container: animation flag, ANIM chunk
(background color `[1,2,3,4]`, loop count 1), and one ANMF chunk (declared
size 32: a 16-byte frame header for a 1×1 frame at (0,0) with duration 10 and
flags 0, followed by an 8-byte VP8L sub-chunk).  The ANMF chunk header is at
offset 44, its payload range is `[52, 84)`. -/
def animBytes : List Nat :=
  [0x52, 0x49, 0x46, 0x46, 0x4C, 0, 0, 0, 0x57, 0x45, 0x42, 0x50,
   0x56, 0x50, 0x38, 0x58, 10, 0, 0, 0,
   0x02, 0, 0, 0, 0, 0, 0, 0, 0, 0,
   0x41, 0x4E, 0x49, 0x4D, 6, 0, 0, 0, 1, 2, 3, 4, 1, 0,
   0x41, 0x4E, 0x4D, 0x46, 32, 0, 0, 0,
   0, 0, 0, 0, 0, 0, 0, 0, 0, 0, 0, 0, 10, 0, 0, 0,
   0x56, 0x50, 0x38, 0x4C, 8, 0, 0, 0, 0x2F, 0, 0, 0, 0, 0, 0, 0]

/-- A concrete oracle: the lossless decoder recognizes exactly the 8-byte
VP8L payload of `animBytes` and produces a single pixel `[7, 8, 9, 255]`;
everything else fails. -/
def oracle0 : DecodeOracle :=
  { vp8 := fun _ => .error .decoderError
    vp8l := fun bytes =>
      if bytes = [0x2F, 0, 0, 0, 0, 0, 0, 0] then
        .ok ⟨1, 1, [7, 8, 9], [7, 8, 9, 255]⟩
      else .error .decoderError
    alph := fun _ _ _ => .error .decoderError
    predictor := fun _ _ _ _ _ => 0 }

theorem readU8_ok_state {st : ByteStream} {b : Nat} {st1 : ByteStream}
    (h : readU8 st = .ok (b, st1)) : st1 = ⟨st.data, st.pos + 1⟩ := by
  unfold readU8 at h
  split at h <;> simp_all

theorem readBytes_ok_state :
    ∀ (n : Nat) (st : ByteStream) (bs : List Nat) (st1 : ByteStream),
      readBytes n st = .ok (bs, st1) → st1 = ⟨st.data, st.pos + n⟩ := by
  intro n
  induction n with
  | zero =>
    intro st bs st1 h
    unfold readBytes at h
    simp only [Except.ok.injEq, Prod.mk.injEq] at h
    obtain ⟨-, h2⟩ := h
    cases st
    simp [← h2]
  | succ m ih =>
    intro st bs st1 h
    unfold readBytes at h
    split at h
    · exact absurd h (by simp)
    · rename_i b stA hA
      split at h
      · exact absurd h (by simp)
      · rename_i bs2 stB hB
        simp only [Except.ok.injEq, Prod.mk.injEq] at h
        obtain ⟨-, h2⟩ := h
        have e1 := readU8_ok_state hA
        have e2 := ih stA bs2 stB hB
        subst e1
        simp only at e2
        subst h2
        rw [e2]
        simp only [ByteStream.mk.injEq, true_and]
        all_goals omega

theorem readU32_ok_state {st : ByteStream} {v : Nat} {st1 : ByteStream}
    (h : readU32 st = .ok (v, st1)) : st1 = ⟨st.data, st.pos + 4⟩ := by
  unfold readU32 at h
  split at h
  · exact absurd h (by simp)
  rename_i b0 s1 h1
  split at h
  · exact absurd h (by simp)
  rename_i b1 s2 h2
  split at h
  · exact absurd h (by simp)
  rename_i b2 s3 h3
  split at h
  · exact absurd h (by simp)
  rename_i b3 s4 h4
  simp only [Except.ok.injEq, Prod.mk.injEq] at h
  obtain ⟨-, hst⟩ := h
  have g1 := readU8_ok_state h1
  have g2 := readU8_ok_state h2
  have g3 := readU8_ok_state h3
  have g4 := readU8_ok_state h4
  subst g1; subst g2; subst g3; subst g4
  rw [← hst]

theorem read_fourcc_ok_state {st : ByteStream} {c : WebPRiffChunk} {st1 : ByteStream}
    (h : read_fourcc st = .ok (c, st1)) : st1 = ⟨st.data, st.pos + 4⟩ := by
  unfold read_fourcc at h
  split at h
  · exact absurd h (by simp)
  rename_i bs stA hA
  simp only [Except.ok.injEq, Prod.mk.injEq] at h
  obtain ⟨-, hst⟩ := h
  rw [← hst]
  exact readBytes_ok_state 4 st bs stA hA

theorem read_chunk_header_ok_state {st : ByteStream} {c : WebPRiffChunk}
    {n r : Nat} {st1 : ByteStream}
    (h : read_chunk_header st = .ok ((c, n, r), st1)) :
    st1 = ⟨st.data, st.pos + 8⟩ ∧ r = satAdd32 n (n &&& 1) := by
  unfold read_chunk_header at h
  split at h
  · exact absurd h (by simp)
  rename_i ch stA hA
  split at h
  · exact absurd h (by simp)
  rename_i sz stB hB
  simp only [Except.ok.injEq, Prod.mk.injEq] at h
  obtain ⟨⟨-, hn, hr⟩, hst⟩ := h
  have e1 := read_fourcc_ok_state hA
  have e2 := readU32_ok_state hB
  subst e1
  simp only at e2
  constructor
  · rw [← hst, e2]
  · rw [← hr, hn]

/-- A lossless still container with symbolic 32-bit header bytes `b0..b3`
following the `0x2F` signature, and an arbitrary remainder. -/
def vp8lStream (b0 b1 b2 b3 : Nat) (rest : List Nat) : List Nat :=
  0x52 :: 0x49 :: 0x46 :: 0x46 :: 0x1E :: 0 :: 0 :: 0 ::
  0x57 :: 0x45 :: 0x42 :: 0x50 ::
  0x56 :: 0x50 :: 0x38 :: 0x4C :: 5 :: 0 :: 0 :: 0 ::
  0x2F :: b0 :: b1 :: b2 :: b3 :: rest

/-- C1 (counterexample): on the lossless container whose 32-bit header is
`0x3FFF` (14-bit width field all ones, version 0), `WebPDecoder::new` accepts
the stream and `dimensions()` returns width `0`, but the claim's formula
`1 + (header & 0x3FFF)` gives `16384 ≠ 0`. -/
theorem vp8l_width_formula_counterexample :
    (readData ⟨vp8lBoundaryBytes, 0⟩).toOption.map dimensions = some (0, 1) ∧
    1 + (0x3FFF &&& 0x3FFF) ≠ (0 : Nat) := by
  exact ⟨by decide, by decide⟩

set_option maxHeartbeats 2000000 in
/-- C1 (amended): for every lossless-still container accepted by
`WebPDecoder::new`, `dimensions()` returns
width `= (1 + (header & 0x3FFF)) mod 2^14` and
height `= (1 + ((header >> 14) & 0x3FFF)) mod 2^14` — the spec's offset-by-one
fields, further reduced modulo `2^14` because the code masks after adding 1
(`(1 + header) & 0x3FFF`). -/
theorem lossless_dimensions_of_header (b0 b1 b2 b3 : Nat) (rest : List Nat)
    (h0 : b0 < 256) (h1 : b1 < 256) (h2 : b2 < 256) (h3 : b3 < 32) :
    (readData ⟨vp8lStream b0 b1 b2 b3 rest, 0⟩).toOption.map dimensions =
      some ((1 + ((b0 + 256 * b1 + 65536 * b2 + 16777216 * b3) &&& 0x3FFF)) % 16384,
            (1 + (((b0 + 256 * b1 + 65536 * b2 + 16777216 * b3) >>> 14) &&& 0x3FFF)) % 16384) := by
  have hv : (b0 + 256 * b1 + 65536 * b2 + 16777216 * b3) >>> 29 = 0 := by
    rw [Nat.shiftRight_eq_div_pow]
    exact Nat.div_eq_of_lt (by omega)
  simp only [readData, vp8lStream, readU8, readBytes, readU16, readU24, readU32, byteAt,
    read_fourcc, read_chunk_header, WebPRiffChunk.from_fourcc, satAdd32, hv,
    dimensions, Except.toOption, Option.map]
  norm_num
  constructor
  · have := Nat.and_pow_two_sub_one_eq_mod
      (1 + (b0 + 256 * b1 + 65536 * b2 + 16777216 * b3)) 14
    have := Nat.and_pow_two_sub_one_eq_mod (b0 + 256 * b1 + 65536 * b2 + 16777216 * b3) 14
    norm_num at *
    omega
  · have := Nat.and_pow_two_sub_one_eq_mod
      (1 + ((b0 + 256 * b1 + 65536 * b2 + 16777216 * b3) >>> 14)) 14
    have := Nat.and_pow_two_sub_one_eq_mod
      ((b0 + 256 * b1 + 65536 * b2 + 16777216 * b3) >>> 14) 14
    have := Nat.shiftRight_eq_div_pow (b0 + 256 * b1 + 65536 * b2 + 16777216 * b3) 14
    norm_num at *
    omega

/-- C1 (witness): the amended statement, instantiated at the boundary header
`0x3FFF`. -/
theorem lossless_dimensions_of_header_witness :
    (readData ⟨vp8lStream 0xFF 0x3F 0 0 [], 0⟩).toOption.map dimensions =
      some ((1 + ((0xFF + 256 * 0x3F + 65536 * 0 + 16777216 * 0) &&& 0x3FFF)) % 16384,
            (1 + (((0xFF + 256 * 0x3F + 65536 * 0 + 16777216 * 0) >>> 14) &&& 0x3FFF)) % 16384) :=
  lossless_dimensions_of_header 0xFF 0x3F 0 0 []
    (by decide) (by decide) (by decide) (by decide)

theorem from_fourcc_riff (l : List Nat)
    (h : WebPRiffChunk.from_fourcc l = .RIFF) : l = [0x52, 0x49, 0x46, 0x46] := by
  unfold WebPRiffChunk.from_fourcc at h
  by_cases h1 : l = [0x52, 0x49, 0x46, 0x46]
  · exact h1
  · rw [if_neg h1] at h
    exfalso
    repeat' split at h
    all_goals exact WebPRiffChunk.noConfusion h

/-- Discriminator: is the result a `RiffSignatureInvalid` failure? -/
def isRiffSignatureErr : Except DecodingError DecoderState → Bool
  | .error (.riffSignatureInvalid _) => true
  | _ => false

/-- A stream whose first four bytes are "ABCD", not the RIFF marker. -/
def notRiffBytes : List Nat := [0x41, 0x42, 0x43, 0x44, 0, 0, 0, 0]

/-- C6 (counterexample): on a stream starting "ABCD", `WebPDecoder::new`
fails with `ChunkHeaderInvalid(*b"RIFF")`, not with `RiffSignatureInvalid`
as the claim states. -/
theorem riff_error_variant_counterexample :
    readData ⟨notRiffBytes, 0⟩ = .error (.chunkHeaderInvalid [0x52, 0x49, 0x46, 0x46]) ∧
    isRiffSignatureErr (readData ⟨notRiffBytes, 0⟩) = false := by
  exact ⟨by rfl, by rfl⟩

/-- C6 (amended): for every input stream with at least 8 readable bytes whose
first four bytes are not the RIFF envelope marker, `WebPDecoder::new` fails
with `ChunkHeaderInvalid(*b"RIFF")` (the `RiffSignatureInvalid` variant is not
produced by this path; a stream shorter than 8 bytes fails earlier with the
propagated IO error). -/
theorem riff_mismatch_rejected (a b c d e4 e5 e6 e7 : Nat) (rest : List Nat)
    (h : [a, b, c, d] ≠ [0x52, 0x49, 0x46, 0x46]) :
    readData ⟨a :: b :: c :: d :: e4 :: e5 :: e6 :: e7 :: rest, 0⟩ =
      .error (.chunkHeaderInvalid [0x52, 0x49, 0x46, 0x46]) := by
  have h2 : WebPRiffChunk.from_fourcc [a, b, c, d] ≠ .RIFF :=
    fun hh => h (from_fourcc_riff _ hh)
  simp only [readData, read_chunk_header, read_fourcc, readBytes, readU8, readU32,
    byteAt, satAdd32]
  simp [h2]

/-- C6 (witness): the amended statement at the concrete stream "ABCD····". -/
theorem riff_mismatch_rejected_witness :
    readData ⟨0x41 :: 0x42 :: 0x43 :: 0x44 :: 0 :: 0 :: 0 :: 0 :: [], 0⟩ =
      .error (.chunkHeaderInvalid [0x52, 0x49, 0x46, 0x46]) :=
  riff_mismatch_rejected 0x41 0x42 0x43 0x44 0 0 0 0 [] (by decide)

theorem seekRelative_nonneg (st : ByteStream) (k : Nat) :
    seekRelative st (k : Int) = .ok ⟨st.data, st.pos + k⟩ := by
  unfold seekRelative
  rw [if_neg (by omega)]
  have h : ((st.pos : Int) + (k : Int)).toNat = st.pos + k := by omega
  rw [h]

theorem seekRelative_sub8 (st : ByteStream) (k : Nat) (h8 : 8 ≤ st.pos) :
    seekRelative st ((k : Int) - 8) = .ok ⟨st.data, st.pos + k - 8⟩ := by
  unfold seekRelative
  rw [if_neg (by omega)]
  have h : ((st.pos : Int) + ((k : Int) - 8)).toNat = st.pos + k - 8 := by omega
  rw [h]

/-- C5: during the extended-format chunk-list scan, every recognized chunk with
declared size `n` is recorded under the unpadded payload range
`[position + 8, position + 8 + n)` (first occurrence wins) while the scan
cursor advances by `8` plus the padded size, and the padded size returned by
`read_chunk_header` equals `n + (n & 1)` computed with `u32` saturating
addition, i.e. `min (n + n % 2) (2^32 - 1)`.  The loop-step equation is stated
for each iteration shape: a plain recognized chunk, an ANMF chunk when the
image is already known lossy, and an ANMF chunk with the nested header
peek. -/
theorem chunk_scan_records_unpadded_advances_padded :
    (∀ st c n r st1, read_chunk_header st = .ok ((c, n, r), st1) →
        r = min (n + n % 2) 4294967295) ∧
    (∀ st position max_position chunks num_frames is_lossy c n r st1,
        position < max_position →
        read_chunk_header st = .ok ((c, n, r), st1) →
        c.is_unknown = false →
        c ≠ .ANMF →
        scanChunks st position max_position chunks num_frames is_lossy =
          scanChunks ⟨st.data, st.pos + 8 + r⟩ (position + 8 + r) max_position
            (chunks.insertIfAbsent c (position + 8, position + 8 + n))
            num_frames is_lossy) ∧
    (∀ st position max_position chunks num_frames n r st1,
        position < max_position →
        read_chunk_header st = .ok ((.ANMF, n, r), st1) →
        scanChunks st position max_position chunks num_frames true =
          scanChunks ⟨st.data, st.pos + 8 + r⟩ (position + 8 + r) max_position
            (chunks.insertIfAbsent .ANMF (position + 8, position + 8 + n))
            (num_frames + 1) true) ∧
    (∀ st position max_position chunks num_frames n r st1 sc sn sr st2,
        position < max_position →
        read_chunk_header st = .ok ((.ANMF, n, r), st1) →
        read_chunk_header st1 = .ok ((sc, sn, sr), st2) →
        scanChunks st position max_position chunks num_frames false =
          scanChunks ⟨st.data, st.pos + 8 + r⟩ (position + 8 + r) max_position
            (chunks.insertIfAbsent .ANMF (position + 8, position + 8 + n))
            (num_frames + 1) (if sc = .VP8 ∨ sc = .ALPH then true else false)) := by
  refine ⟨?_, ?_, ?_, ?_⟩
  · intro st c n r st1 h
    obtain ⟨-, hr⟩ := read_chunk_header_ok_state h
    rw [hr]
    unfold satAdd32
    rw [Nat.and_one_is_mod]
  · intro st position max_position chunks num_frames is_lossy c n r st1 hlt hread hunk hne
    obtain ⟨hst1, -⟩ := read_chunk_header_ok_state hread
    subst hst1
    conv_lhs => rw [scanChunks]
    rw [dif_pos hlt, hread]
    simp only [hunk, Bool.false_eq_true, if_false, if_neg hne, seekRelative_nonneg]
  · intro st position max_position chunks num_frames n r st1 hlt hread
    obtain ⟨hst1, -⟩ := read_chunk_header_ok_state hread
    subst hst1
    conv_lhs => rw [scanChunks]
    rw [dif_pos hlt, hread]
    simp only [WebPRiffChunk.is_unknown, Bool.false_eq_true, if_false, if_pos rfl,
      Bool.not_true, seekRelative_nonneg, eq_self_iff_true, if_true]
  · intro st position max_position chunks num_frames n r st1 sc sn sr st2 hlt hread hpeek
    obtain ⟨hst1, -⟩ := read_chunk_header_ok_state hread
    subst hst1
    obtain ⟨hst2, -⟩ := read_chunk_header_ok_state hpeek
    subst hst2
    conv_lhs => rw [scanChunks]
    rw [dif_pos hlt, hread]
    simp only [WebPRiffChunk.is_unknown, Bool.false_eq_true, if_false, if_pos rfl,
      Bool.not_false, hpeek, eq_self_iff_true, if_true,
      seekRelative_sub8 ⟨st.data, st.pos + 8 + 8⟩ r (by simp)]
    have harith : st.pos + 8 + 8 + r - 8 = st.pos + 8 + r := by omega
    rw [harith]

/-- C5 (witness): the padded-size equation and the plain-chunk loop step,
instantiated on a concrete ICCP chunk of odd declared size 3 at position 0. -/
theorem chunk_scan_witness :
    (4 : Nat) = min (3 + 3 % 2) 4294967295 ∧
    scanChunks ⟨[0x49, 0x43, 0x43, 0x50, 3, 0, 0, 0, 9, 9, 9, 0], 0⟩ 0 100 [] 0 false =
      scanChunks ⟨[0x49, 0x43, 0x43, 0x50, 3, 0, 0, 0, 9, 9, 9, 0], 12⟩ 12 100
        (Chunks.insertIfAbsent [] .ICCP (8, 11)) 0 false := by
  constructor
  · exact chunk_scan_records_unpadded_advances_padded.1
      ⟨[0x49, 0x43, 0x43, 0x50, 3, 0, 0, 0, 9, 9, 9, 0], 0⟩ .ICCP 3 4
      ⟨[0x49, 0x43, 0x43, 0x50, 3, 0, 0, 0, 9, 9, 9, 0], 8⟩ (by rfl)
  · exact chunk_scan_records_unpadded_advances_padded.2.1
      ⟨[0x49, 0x43, 0x43, 0x50, 3, 0, 0, 0, 9, 9, 9, 0], 0⟩ 0 100 [] 0 false .ICCP 3 4
      ⟨[0x49, 0x43, 0x43, 0x50, 3, 0, 0, 0, 9, 9, 9, 0], 8⟩ (by omega) (by rfl)
      (by rfl) (by decide)

/-- C8: during the extended-format chunk-list scan, an unrecognized tag
terminates the scan normally (returning the state accumulated so far), and an
`UnexpectedEof` while reading a chunk header at the top of the loop likewise
terminates the scan normally; by contrast the nested ANMF header peek
propagates `UnexpectedEof` as a hard error, and outside the walk end-of-stream
is a hard error (shown for `WebPDecoder::new` hitting end-of-stream while
reading the format signature). -/
theorem scan_stops_on_unknown_or_eof :
    (∀ st position max_position chunks num_frames is_lossy c n r st1,
        position < max_position →
        read_chunk_header st = .ok ((c, n, r), st1) →
        c.is_unknown = true →
        scanChunks st position max_position chunks num_frames is_lossy =
          .ok (st1, chunks, num_frames, is_lossy)) ∧
    (∀ st position max_position chunks num_frames is_lossy,
        position < max_position →
        read_chunk_header st = .error (.ioError .unexpectedEof) →
        scanChunks st position max_position chunks num_frames is_lossy =
          .ok (st, chunks, num_frames, is_lossy)) ∧
    (∀ st position max_position chunks num_frames n r st1,
        position < max_position →
        read_chunk_header st = .ok ((.ANMF, n, r), st1) →
        read_chunk_header st1 = .error (.ioError .unexpectedEof) →
        scanChunks st position max_position chunks num_frames false =
          .error (.ioError .unexpectedEof)) ∧
    readData ⟨[0x52, 0x49, 0x46, 0x46, 0, 0, 0, 0], 0⟩ =
      .error (.ioError .unexpectedEof) := by
  refine ⟨?_, ?_, ?_, by rfl⟩
  · intro st position max_position chunks num_frames is_lossy c n r st1 hlt hread hunk
    conv_lhs => rw [scanChunks]
    rw [dif_pos hlt, hread]
    simp only [hunk, if_true]
  · intro st position max_position chunks num_frames is_lossy hlt hread
    conv_lhs => rw [scanChunks]
    rw [dif_pos hlt, hread]
  · intro st position max_position chunks num_frames n r st1 hlt hread hpeek
    conv_lhs => rw [scanChunks]
    rw [dif_pos hlt, hread]
    simp only [WebPRiffChunk.is_unknown, Bool.false_eq_true, if_false, if_pos rfl,
      Bool.not_false, hpeek, eq_self_iff_true, if_true]

/-- C8 (witness): the three scan-loop conjuncts instantiated on concrete
streams: an unknown tag "ABCD", an empty stream, and a truncated ANMF chunk. -/
theorem scan_stops_witness :
    scanChunks ⟨[0x41, 0x42, 0x43, 0x44, 2, 0, 0, 0, 5, 5], 0⟩ 0 50 [] 0 false =
      .ok (⟨[0x41, 0x42, 0x43, 0x44, 2, 0, 0, 0, 5, 5], 8⟩, [], 0, false) ∧
    scanChunks ⟨[], 0⟩ 0 50 [] 0 false = .ok (⟨[], 0⟩, [], 0, false) ∧
    scanChunks ⟨[0x41, 0x4E, 0x4D, 0x46, 32, 0, 0, 0, 7], 0⟩ 0 50 [] 0 false =
      .error (.ioError .unexpectedEof) := by
  refine ⟨?_, ?_, ?_⟩
  · exact scan_stops_on_unknown_or_eof.1
      ⟨[0x41, 0x42, 0x43, 0x44, 2, 0, 0, 0, 5, 5], 0⟩ 0 50 [] 0 false
      (.Unknown [0x41, 0x42, 0x43, 0x44]) 2 2
      ⟨[0x41, 0x42, 0x43, 0x44, 2, 0, 0, 0, 5, 5], 8⟩ (by omega) (by rfl) (by rfl)
  · exact scan_stops_on_unknown_or_eof.2.1 ⟨[], 0⟩ 0 50 [] 0 false (by omega) (by rfl)
  · exact scan_stops_on_unknown_or_eof.2.2.1
      ⟨[0x41, 0x4E, 0x4D, 0x46, 32, 0, 0, 0, 7], 0⟩ 0 50 [] 0 32 32
      ⟨[0x41, 0x4E, 0x4D, 0x46, 32, 0, 0, 0, 7], 8⟩ (by omega) (by rfl) (by rfl)

/-- The decoder state produced by `WebPDecoder::new` on
`alphaFlagNoAlphBytes`. -/
def alphaFlagDecoded : DecoderState :=
  { r := ⟨alphaFlagNoAlphBytes, 44⟩
    memory_limit := 18446744073709551615
    width := 1
    height := 1
    num_frames := 0
    animation := { next_frame := 0, loops_before_done := none, next_frame_start := 0,
                   dispose_next_frame := true, canvas := none }
    kind := .extended { icc_profile := false, alpha := true, exif_metadata := false,
                        xmp_metadata := false, animation := false,
                        canvas_width := 1, canvas_height := 1,
                        background_color := [0, 0, 0, 0] }
    is_lossy := false
    chunks := [(.VP8L, 38, 43)] }

set_option maxHeartbeats 2000000 in
theorem readData_alphaFlag :
    readData ⟨alphaFlagNoAlphBytes, 0⟩ = .ok alphaFlagDecoded := by
  simp +decide [readData, scanChunks, read_chunk_header, read_fourcc, readBytes, readU8, readU32,
    byteAt, satAdd32, read_extended_header, read_3_bytes, readU24, readU16,
    WebPRiffChunk.from_fourcc, WebPRiffChunk.is_unknown, seekRelative,
    Chunks.insertIfAbsent, Chunks.findTag, Chunks.containsTag, chunkFlagValidationFails,
    decodeAnimChunk, readChunk, prepopulateFirstFrame, List.find?,
    alphaFlagNoAlphBytes, alphaFlagDecoded, AnimationState.dflt]

/-- The decoder state produced by `WebPDecoder::new` on `animBytes`.  Note
`next_frame_start = 52`, the ANMF chunk's payload start, while the ANMF chunk
header sits at offset 44; the `Unknown [0,0,0,0]` entry is recorded by the
first-frame pre-population step, which reads sub-chunk headers at the payload
start (where the 16-byte frame header lives) instead of after it. -/
def animDecoded : DecoderState :=
  { r := ⟨animBytes, 68⟩
    memory_limit := 18446744073709551615
    width := 1
    height := 1
    num_frames := 1
    animation := { next_frame := 0, loops_before_done := some 1, next_frame_start := 52,
                   dispose_next_frame := true, canvas := none }
    kind := .extended { icc_profile := false, alpha := false, exif_metadata := false,
                        xmp_metadata := false, animation := true,
                        canvas_width := 1, canvas_height := 1,
                        background_color := [1, 2, 3, 4] }
    is_lossy := false
    chunks := [(.Unknown [0, 0, 0, 0], 60, 60), (.ANMF, 52, 84), (.ANIM, 38, 44)] }

set_option maxHeartbeats 4000000 in
theorem readData_anim :
    readData ⟨animBytes, 0⟩ = .ok animDecoded := by
  simp +decide [readData, scanChunks, read_chunk_header, read_fourcc, readBytes, readU8, readU32,
    byteAt, satAdd32, read_extended_header, read_3_bytes, readU24, readU16,
    WebPRiffChunk.from_fourcc, WebPRiffChunk.is_unknown, seekRelative,
    Chunks.insertIfAbsent, Chunks.findTag, Chunks.containsTag, chunkFlagValidationFails,
    decodeAnimChunk, readChunk, prepopulateFirstFrame, List.find?,
    animBytes, animDecoded, AnimationState.dflt]

set_option maxHeartbeats 2000000 in
theorem readData_iccFlag :
    readData ⟨iccFlagNoIccpBytes, 0⟩ = .error .chunkMissing := by
  simp +decide [readData, scanChunks, read_chunk_header, read_fourcc, readBytes, readU8, readU32,
    byteAt, satAdd32, read_extended_header, read_3_bytes, readU24, readU16,
    WebPRiffChunk.from_fourcc, WebPRiffChunk.is_unknown, seekRelative,
    Chunks.insertIfAbsent, Chunks.findTag, Chunks.containsTag, chunkFlagValidationFails,
    decodeAnimChunk, readChunk, prepopulateFirstFrame, List.find?, iccFlagNoIccpBytes]

set_option maxHeartbeats 2000000 in
theorem readData_exifFlag :
    readData ⟨exifFlagNoExifBytes, 0⟩ = .error .chunkMissing := by
  simp +decide [readData, scanChunks, read_chunk_header, read_fourcc, readBytes, readU8, readU32,
    byteAt, satAdd32, read_extended_header, read_3_bytes, readU24, readU16,
    WebPRiffChunk.from_fourcc, WebPRiffChunk.is_unknown, seekRelative,
    Chunks.insertIfAbsent, Chunks.findTag, Chunks.containsTag, chunkFlagValidationFails,
    decodeAnimChunk, readChunk, prepopulateFirstFrame, List.find?, exifFlagNoExifBytes]

set_option maxHeartbeats 2000000 in
theorem readData_xmpFlag :
    readData ⟨xmpFlagNoXmpBytes, 0⟩ = .error .chunkMissing := by
  simp +decide [readData, scanChunks, read_chunk_header, read_fourcc, readBytes, readU8, readU32,
    byteAt, satAdd32, read_extended_header, read_3_bytes, readU24, readU16,
    WebPRiffChunk.from_fourcc, WebPRiffChunk.is_unknown, seekRelative,
    Chunks.insertIfAbsent, Chunks.findTag, Chunks.containsTag, chunkFlagValidationFails,
    decodeAnimChunk, readChunk, prepopulateFirstFrame, List.find?, xmpFlagNoXmpBytes]

set_option maxHeartbeats 2000000 in
theorem readData_bothPayloads :
    readData ⟨bothPayloadsBytes, 0⟩ = .error .chunkMissing := by
  simp +decide [readData, scanChunks, read_chunk_header, read_fourcc, readBytes, readU8, readU32,
    byteAt, satAdd32, read_extended_header, read_3_bytes, readU24, readU16,
    WebPRiffChunk.from_fourcc, WebPRiffChunk.is_unknown, seekRelative,
    Chunks.insertIfAbsent, Chunks.findTag, Chunks.containsTag, chunkFlagValidationFails,
    decodeAnimChunk, readChunk, prepopulateFirstFrame, List.find?, bothPayloadsBytes]

set_option maxHeartbeats 2000000 in
theorem readData_neitherPayload :
    readData ⟨neitherPayloadBytes, 0⟩ = .error .chunkMissing := by
  simp +decide [readData, scanChunks, read_chunk_header, read_fourcc, readBytes, readU8, readU32,
    byteAt, satAdd32, read_extended_header, read_3_bytes, readU24, readU16,
    WebPRiffChunk.from_fourcc, WebPRiffChunk.is_unknown, seekRelative,
    Chunks.insertIfAbsent, Chunks.findTag, Chunks.containsTag, chunkFlagValidationFails,
    decodeAnimChunk, readChunk, prepopulateFirstFrame, List.find?, neitherPayloadBytes]

/-- C2 (counterexample): an extended container with the has-alpha flag set and
no ALPH chunk anywhere is accepted by `WebPDecoder::new` (the flag validation
never checks the alpha/ALPH pair), instead of failing with `ChunkMissing`. -/
theorem alpha_flag_without_alph_accepted :
    (readData ⟨alphaFlagNoAlphBytes, 0⟩).toOption.map
      (fun d => (has_alpha d, d.chunks.containsTag .ALPH)) = some (true, false) := by
  rw [readData_alphaFlag]
  decide

/-- C2 (amended): of the four feature-flag/chunk pairs, exactly three are
validated: a set has-ICC, has-EXIF or has-XMP flag whose chunk is absent makes
the flag validation fail (hence `WebPDecoder::new` returns `ChunkMissing`,
shown end-to-end on concrete containers for each pair), but the has-alpha/ALPH
pair is never checked: a container with the alpha flag set and no ALPH chunk
is accepted. -/
theorem flag_chunk_pairs_validated :
    (∀ info chunks, info.icc_profile = true → chunks.containsTag .ICCP = false →
        chunkFlagValidationFails info chunks = true) ∧
    (∀ info chunks, info.exif_metadata = true → chunks.containsTag .EXIF = false →
        chunkFlagValidationFails info chunks = true) ∧
    (∀ info chunks, info.xmp_metadata = true → chunks.containsTag .XMP = false →
        chunkFlagValidationFails info chunks = true) ∧
    readData ⟨iccFlagNoIccpBytes, 0⟩ = .error .chunkMissing ∧
    readData ⟨exifFlagNoExifBytes, 0⟩ = .error .chunkMissing ∧
    readData ⟨xmpFlagNoXmpBytes, 0⟩ = .error .chunkMissing ∧
    (readData ⟨alphaFlagNoAlphBytes, 0⟩).toOption.map
      (fun d => (has_alpha d, d.chunks.containsTag .ALPH, d.chunks.containsTag .VP8L)) =
      some (true, false, true) := by
  refine ⟨?_, ?_, ?_, readData_iccFlag, readData_exifFlag, readData_xmpFlag, ?_⟩
  · intro info chunks h1 h2
    simp [chunkFlagValidationFails, h1, h2]
  · intro info chunks h1 h2
    simp [chunkFlagValidationFails, h1, h2]
  · intro info chunks h1 h2
    simp [chunkFlagValidationFails, h1, h2]
  · rw [readData_alphaFlag]
    decide

/-- C2 (witness): the three validated pairs, instantiated on an info record
with the respective flag set and an empty chunk index. -/
theorem flag_chunk_pairs_validated_witness :
    chunkFlagValidationFails
      { icc_profile := true, alpha := false, exif_metadata := false, xmp_metadata := false,
        animation := false, canvas_width := 1, canvas_height := 1,
        background_color := [0, 0, 0, 0] } [(.VP8, 0, 0)] = true ∧
    chunkFlagValidationFails
      { icc_profile := false, alpha := false, exif_metadata := true, xmp_metadata := false,
        animation := false, canvas_width := 1, canvas_height := 1,
        background_color := [0, 0, 0, 0] } [(.VP8, 0, 0)] = true ∧
    chunkFlagValidationFails
      { icc_profile := false, alpha := false, exif_metadata := false, xmp_metadata := true,
        animation := false, canvas_width := 1, canvas_height := 1,
        background_color := [0, 0, 0, 0] } [(.VP8, 0, 0)] = true := by
  refine ⟨?_, ?_, ?_⟩
  · exact flag_chunk_pairs_validated.1 _ _ (by rfl) (by decide)
  · exact flag_chunk_pairs_validated.2.1 _ _ (by rfl) (by decide)
  · exact flag_chunk_pairs_validated.2.2.1 _ _ (by rfl) (by decide)

/-- C9: for a non-animated extended container, the flag validation fails with
`ChunkMissing` whenever VP8 presence equals VP8L presence in the chunk index
(both present or both absent), shown in general on the validation condition
and end-to-end on concrete containers for both directions. -/
theorem exactly_one_still_payload_required :
    (∀ info chunks, info.animation = false →
        chunks.containsTag .VP8 = chunks.containsTag .VP8L →
        chunkFlagValidationFails info chunks = true) ∧
    readData ⟨bothPayloadsBytes, 0⟩ = .error .chunkMissing ∧
    readData ⟨neitherPayloadBytes, 0⟩ = .error .chunkMissing := by
  refine ⟨?_, readData_bothPayloads, readData_neitherPayload⟩
  intro info chunks h1 h2
  simp [chunkFlagValidationFails, h1, h2]

/-- C9 (witness): the validation conjunct, instantiated at an info record with
no flags and a chunk index containing both VP8 and VP8L. -/
theorem exactly_one_still_payload_required_witness :
    chunkFlagValidationFails
      { icc_profile := false, alpha := false, exif_metadata := false, xmp_metadata := false,
        animation := false, canvas_width := 1, canvas_height := 1,
        background_color := [0, 0, 0, 0] } [(.VP8, 0, 4), (.VP8L, 8, 12)] = true :=
  exactly_one_still_payload_required.1 _ _ (by rfl) (by decide)

/-- C7: `set_background_color` only requires the container to be extended; it
never consults the animation flag, contradicting its own documentation ("Sets
the background color if the image is an extended and animated webp") and error
message.  On a non-animated extended container it succeeds and stores the
color instead of returning an error. -/
theorem set_background_color_accepts_non_animated :
    (readData ⟨alphaFlagNoAlphBytes, 0⟩).toOption.map (fun d =>
      (has_animation d, (set_background_color d [9, 9, 9, 9]).1.isOk,
        match (set_background_color d [9, 9, 9, 9]).2.kind with
        | .extended i => i.background_color
        | _ => [])) = some (false, true, [9, 9, 9, 9]) := by
  rw [readData_alphaFlag]
  decide

/-- C4: `read_data` seeds the animation cursor (and its wraparound reset) to
the ANMF chunk's payload start, while `read_frame` seeks there expecting the
ANMF chunk header; on a well-formed 1-frame animated container with loop count
1 the first `read_frame` call therefore fails with `ChunkHeaderInvalid` rather
than returning `Some(duration)`.  With the cursor placed at the chunk header
(offset 44) instead, the very same container and oracle decode the frame and
return duration 10 — the failure is the seeding, not the container. -/
theorem animated_first_read_frame_fails :
    (readData ⟨animBytes, 0⟩).toOption.map (fun d =>
      (d.num_frames, d.animation.loops_before_done, d.animation.next_frame_start,
       d.chunks.findTag .ANMF, (readFrame oracle0 d [0, 0, 0, 0]).1)) =
      some (1, some 1, 52, some (52, 84),
        .error (.chunkHeaderInvalid [0x41, 0x4E, 0x4D, 0x46])) ∧
    (readFrame oracle0
        { animDecoded with animation :=
            { animDecoded.animation with next_frame_start := 44 } } [0, 0, 0, 0]).1 =
      .ok (some 10) := by
  constructor
  · rw [readData_anim]
    rfl
  · rfl

set_option maxHeartbeats 4000000 in
/-- C3: whenever `read_frame` returns an error (a Rust `Err`, as opposed to a
panic, which never returns), the whole `AnimationState` — the cursor fields
`next_frame`, `next_frame_start`, `loops_before_done`, `dispose_next_frame`
and the canvas — and the caller's buffer are exactly what they were before the
call; only the reader may have moved. -/
theorem read_frame_error_preserves_state (oracle : DecodeOracle) (d : DecoderState)
    (buf : List Nat) (e : DecodingError)
    (h : (readFrame oracle d buf).1 = .error e) (hp : e ≠ .panicked) :
    (readFrame oracle d buf).2.1.animation = d.animation ∧
    (readFrame oracle d buf).2.2 = buf := by
  rcases hr : readFrame oracle d buf with ⟨res, d2, buf2⟩
  rw [hr] at h
  simp only at h
  subst h
  simp only
  unfold readFrame at hr
  simp only [] at hr
  repeat' split at hr
  all_goals (
    rw [Prod.mk.injEq, Prod.mk.injEq] at hr
    obtain ⟨h1, h2, h3⟩ := hr
    first
      | exact Except.noConfusion h1
      | exact absurd (Except.error.inj h1).symm hp
      | exact ⟨by rw [← h2], h3.symm⟩)

/-- A decoder state for an animated container whose reader is empty: the first
header read inside `read_frame` hits end-of-stream. -/
def emptyReaderAnimState : DecoderState := { animDecoded with r := ⟨[], 0⟩ }

/-- C3 (witness): the preservation statement at a concrete animated decoder
whose reader is empty, so `read_frame` fails with an IO error. -/
theorem read_frame_error_preserves_state_witness :
    (readFrame oracle0 emptyReaderAnimState [0, 0, 0, 0]).1 =
      .error (.ioError .unexpectedEof) ∧
    (.ioError .unexpectedEof : DecodingError) ≠ .panicked ∧
    (readFrame oracle0 emptyReaderAnimState [0, 0, 0, 0]).2.1.animation =
      emptyReaderAnimState.animation ∧
    (readFrame oracle0 emptyReaderAnimState [0, 0, 0, 0]).2.2 = [0, 0, 0, 0] := by
  refine ⟨by rfl, by decide, ?_, ?_⟩
  · exact (read_frame_error_preserves_state oracle0 emptyReaderAnimState [0, 0, 0, 0]
      (.ioError .unexpectedEof) (by rfl) (by decide)).1
  · exact (read_frame_error_preserves_state oracle0 emptyReaderAnimState [0, 0, 0, 0]
      (.ioError .unexpectedEof) (by rfl) (by decide)).2

theorem canvas_match_getD (o : Option (List Nat)) (R : List Nat) :
    (match o with | none => R | some c => c) = o.getD R := by
  cases o <;> rfl

set_option maxHeartbeats 4000000 in
/-- C10: `AnimationState::default` initializes `dispose_next_frame` to `true`;
`WebPDecoder::new` always leaves it `true`; and every successful `read_frame`
call from a state with `dispose_next_frame = true` — in particular the first
call after construction — hands `Some(background_color)` as the clear color to
`composite_frame`, which pre-clears the frame's footprint rectangle to that
color before blitting the frame (final conjunct, on the spec-modelled
compositor). -/
theorem first_frame_pre_clears_background :
    AnimationState.dflt.dispose_next_frame = true ∧
    (∀ st d0, readData st = .ok d0 → d0.animation.dispose_next_frame = true) ∧
    (∀ oracle d buf dur info, d.kind = .extended info →
      d.animation.dispose_next_frame = true →
      (readFrame oracle d buf).1 = .ok (some dur) →
      ∃ frame fx fy fw fh ha ub,
        (readFrame oracle d buf).2.1.animation.canvas =
          some (composite_frame
            (d.animation.canvas.getD
              (List.replicate ((d.width * d.height * 4) % 4294967296) 0))
            d.width d.height (some info.background_color)
            frame fx fy fw fh ha ub)) ∧
    (∀ canvas cw ch color frame fx fy fw fh ha ub,
      composite_frame canvas cw ch (some color) frame fx fy fw fh ha ub =
        blitFrame (clearRect canvas cw color fx fy fw fh) cw frame fx fy fw fh ha ub) := by
  refine ⟨rfl, ?_, ?_, fun canvas cw ch color frame fx fy fw fh ha ub => rfl⟩
  · intro st d0 h
    unfold readData at h
    repeat' split at h
    all_goals try (simp only [] at h; repeat' split at h)
    all_goals first
      | exact Except.noConfusion h
      | (rw [← Except.ok.inj h]; rfl)
  · intro oracle d buf dur info hkind hdisp hok
    rcases hr : readFrame oracle d buf with ⟨res, d2, buf2⟩
    rw [hr] at hok
    simp only at hok
    subst hok
    simp only
    unfold readFrame at hr
    split at hr
    · exact Except.noConfusion (congrArg Prod.fst hr)
    split at hr
    · exact Option.noConfusion (Except.ok.inj (congrArg Prod.fst hr))
    split at hr
    · exact Except.noConfusion (congrArg Prod.fst hr)
    · exact Except.noConfusion (congrArg Prod.fst hr)
    rename_i info2 heq2
    have hinfo : info2 = info := ImageKind.extended.inj (heq2.symm.trans hkind)
    subst hinfo
    split at hr
    · exact Except.noConfusion (congrArg Prod.fst hr)
    rename_i fp hparse
    simp only [] at hr
    split at hr
    · split at hr
      · exact Except.noConfusion (congrArg Prod.fst hr)
      · rename_i anmfStart snd2 hfind
        split at hr
        · rw [Prod.mk.injEq, Prod.mk.injEq] at hr
          obtain ⟨-, h2, -⟩ := hr
          refine ⟨fp.frame_data, fp.frame_x, fp.frame_y, fp.frame_width, fp.frame_height,
            fp.frame_has_alpha, fp.use_alpha_blending, ?_⟩
          rw [← h2]
        · exact Except.noConfusion (congrArg Prod.fst hr)
    · split at hr
      · rw [Prod.mk.injEq, Prod.mk.injEq] at hr
        obtain ⟨-, h2, -⟩ := hr
        refine ⟨fp.frame_data, fp.frame_x, fp.frame_y, fp.frame_width, fp.frame_height,
          fp.frame_has_alpha, fp.use_alpha_blending, ?_⟩
        rw [← h2]
      · exact Except.noConfusion (congrArg Prod.fst hr)

/-- The extended-info record of `animDecoded`. -/
def animExtInfo : WebPExtendedInfo :=
  { icc_profile := false, alpha := false, exif_metadata := false, xmp_metadata := false,
    animation := true, canvas_width := 1, canvas_height := 1,
    background_color := [1, 2, 3, 4] }

/-- `animDecoded` with the animation cursor placed at the ANMF chunk header
(offset 44), from which `read_frame` succeeds. -/
def animAtHeader : DecoderState :=
  { animDecoded with animation := { animDecoded.animation with next_frame_start := 44 } }

/-- C10 (witness): the pre-clear statement instantiated on the concrete
animated container, first call after construction. -/
theorem first_frame_pre_clears_background_witness :
    animAtHeader.kind = .extended animExtInfo ∧
    animAtHeader.animation.dispose_next_frame = true ∧
    (readFrame oracle0 animAtHeader [0, 0, 0, 0]).1 = .ok (some 10) ∧
    ∃ frame fx fy fw fh ha ub,
      (readFrame oracle0 animAtHeader [0, 0, 0, 0]).2.1.animation.canvas =
        some (composite_frame
          (animAtHeader.animation.canvas.getD
            (List.replicate ((animAtHeader.width * animAtHeader.height * 4) % 4294967296) 0))
          animAtHeader.width animAtHeader.height (some animExtInfo.background_color)
          frame fx fy fw fh ha ub) := by
  refine ⟨rfl, rfl, by rfl, ?_⟩
  exact first_frame_pre_clears_background.2.2.1 oracle0 animAtHeader [0, 0, 0, 0] 10
    animExtInfo rfl rfl (by rfl)
